import Mathlib

/-!
Shallow embedding of the KSP Telemetry Grapher script (version 1.2.1).

The program reads a Mechjeb telemetry CSV, builds a column-oriented table,
renders a fixed grid of charts, and saves and/or displays the figure.

Modelling conventions:

* Python floats are modelled as rationals.  A CSV data cell is modelled as
  `Option ℚ`: `some q` stands for a cell whose text parses under Python's
  `float` builtin to the value `q`, and `none` stands for a cell whose text
  does not parse (including an empty cell), in which case `float` raises
  `ValueError`.  Python's numeric parse is strict, so no other outcome
  exists for a cell.
* Fallible Python evaluation is modelled with `Except PyError`; an error
  value that reaches the top level corresponds to an uncaught exception,
  which terminates the interpreter with a non-success status.
* The observable behaviour of one invocation (stdout lines, stderr lines,
  figure handed to the output step, save/close/view effects, termination)
  is collected in an `Outcome` record produced by `run`.
-/

/-- The Python exception kinds that the script can raise. -/
inductive PyError where
  | keyError
  | indexError
  | valueError
deriving DecidableEq

/-- A CSV data cell: `some q` when Python's `float` parses the cell text to
`q`, `none` when `float` raises `ValueError` on it. -/
abbrev Cell := Option ℚ

/-- A CSV file as seen by the script: the header row (line 68,
`headers = next(reader)`) and the remaining data rows. -/
structure CSV where
  headers : List String
  rows : List (List Cell)
deriving DecidableEq

/-- The telemetry table: the insertions performed by the dict comprehension
on lines 70-71, in header order.  Lookup is `dictLookup`. -/
abbrev Table := List (String × List ℚ)

/-- Left-to-right effectful map over a list, stopping at the first error.
This models the eager evaluation of a Python comprehension that may raise. -/
def mapME {α β : Type} (f : α → Except PyError β) : List α → Except PyError (List β)
  | [] => Except.ok []
  | a :: l =>
    match f a with
    | Except.error e => Except.error e
    | Except.ok b =>
      match mapME f l with
      | Except.error e => Except.error e
      | Except.ok bs => Except.ok (b :: bs)

/-- `float(val)` on one cell: yields the parsed value or raises
`ValueError`. -/
def parseCell (c : Cell) : Except PyError ℚ :=
  match c with
  | some v => Except.ok v
  | none => Except.error PyError.valueError

/-- Line 69: `raw_data = tuple(tuple(float(val) for val in line) for line
in reader)`. -/
def raw_data (rows : List (List Cell)) : Except PyError (List (List ℚ)) :=
  mapME (fun line => mapME parseCell line) rows

/-- `tuple(row[idx] for row in raw_data)` (line 70): the `idx`-th cell of
each data row, raising `IndexError` on a too-short row. -/
def columnAt (raw : List (List ℚ)) (idx : Nat) : Except PyError (List ℚ) :=
  mapME (fun row =>
    match row.get? idx with
    | some v => Except.ok v
    | none => Except.error PyError.indexError) raw

/-- Lines 70-71: the dict comprehension
`{col: tuple(row[idx] for row in raw_data) for idx, col in enumerate(headers)}`,
as the ordered list of insertions starting at column index `idx`. -/
def telemetry_data (raw : List (List ℚ)) : Nat → List String → Except PyError Table
  | _, [] => Except.ok []
  | idx, col :: rest =>
    match columnAt raw idx with
    | Except.error e => Except.error e
    | Except.ok vals =>
      match telemetry_data raw (idx + 1) rest with
      | Except.error e => Except.error e
      | Except.ok tbl => Except.ok ((col, vals) :: tbl)

/-- Lookup in the dict built by the comprehension: on duplicate keys the
last insertion wins, as for a Python dict. -/
def dictLookup : Table → String → Option (List ℚ)
  | [], _ => none
  | (k, v) :: rest, key =>
    match dictLookup rest key with
    | some r => some r
    | none => if k = key then some v else none

/-- Lines 67-72: the whole loading step, from the CSV stream to the
telemetry table. -/
def load (csv : CSV) : Except PyError Table :=
  match raw_data csv.rows with
  | Except.error e => Except.error e
  | Except.ok raw => telemetry_data raw 0 csv.headers

/-- One rendered subplot: title, axis labels, the plotted series (x-values
paired with y-values, one pair per `plt.plot` call) and the legend anchor
if a legend is drawn. -/
structure Chart where
  title : String
  xlabel : String
  ylabel : String
  series : List (List ℚ × List ℚ)
  legendLoc : Option String
deriving DecidableEq

/-- The in-memory figure: the subplot grid shape and the charts in drawing
order. -/
structure Figure where
  grid : Nat × Nat
  charts : List Chart
deriving DecidableEq

/-- Lines 75-77: `return (2, 3) if args.verbose else (2, 2)`. -/
def arrange_subplots (verbose : Bool) : Nat × Nat :=
  if verbose then (2, 3) else (2, 2)

/-- The kilometre conversion `[dist / 1000 for dist in ...]` used on lines
87-88 and 109. -/
def to_km (l : List ℚ) : List ℚ :=
  l.map (fun dist => dist / 1000)

/-- The `[3:]` slice on lines 118-119 (comment in source: remove erroneous
measurements). -/
def aoaTrim (l : List ℚ) : List ℚ :=
  l.drop 3

/-- Python list indexing `l[i]`, raising `IndexError` out of range (as on
line 128). -/
def getE (l : List ℚ) (i : Nat) : Except PyError ℚ :=
  match l.get? i with
  | some v => Except.ok v
  | none => Except.error PyError.indexError

/-- `telemetry_data[k]`: dict subscription, raising `KeyError` when the
column is absent. -/
def lookupE (td : Table) (k : String) : Except PyError (List ℚ) :=
  match dictLookup td k with
  | some s => Except.ok s
  | none => Except.error PyError.keyError

/-- Lines 129-130: the delta-v-lost comprehension
`[dv_exp - telemetry_data["SpeedOrbital"][i] + tan_vel for i, dv_exp in
enumerate(telemetry_data["DeltaVExpended"])]`, with `i` starting at the
given index. -/
def dv_lost_terms (so : List ℚ) (tan_vel : ℚ) : Nat → List ℚ → Except PyError (List ℚ)
  | _, [] => Except.ok []
  | i, dv_exp :: rest =>
    match so.get? i with
    | none => Except.error PyError.indexError
    | some s =>
      match dv_lost_terms so tan_vel (i + 1) rest with
      | Except.error e => Except.error e
      | Except.ok l => Except.ok ((dv_exp - s + tan_vel) :: l)

/-- Lines 85-136: the body of the `try` block.  Column lookups and index
accesses happen in source order; any uncaught lookup failure surfaces as
the `Except` error. -/
def render (verbose : Bool) (td : Table) : Except PyError Figure := do
  let downRange ← lookupE td "DownRange"
  let altASL1 ← lookupE td "AltitudeASL"
  let chart1 : Chart :=
    ⟨"Launch Profile", "Distance downrange (km)", "Altitude ASL (km)",
      [(to_km downRange, to_km altASL1)], none⟩
  let tsm2 ← lookupE td "TimeSinceMark"
  let accel ← lookupE td "Acceleration"
  let chart2 : Chart :=
    ⟨"Acceleration", "MET (s)", "Acceleration (g)", [(tsm2, accel)], none⟩
  let tsm3 ← lookupE td "TimeSinceMark"
  let so3 ← lookupE td "SpeedOrbital"
  let chart3 : Chart :=
    ⟨"Orbital Velocity", "MET (s)", "Orbital velocity (m/s)", [(tsm3, so3)], none⟩
  let altASL4 ← lookupE td "AltitudeASL"
  let q4 ← lookupE td "Q"
  let chart4 : Chart :=
    ⟨"Dynamic Pressure", "Altitude ASL (km)", "Q (Pa)", [(to_km altASL4, q4)], none⟩
  if verbose then
    let tsm5 ← lookupE td "TimeSinceMark"
    let aoa ← lookupE td "AoA"
    let chart5 : Chart :=
      ⟨"Angle of Attack", "MET (s)", "AoA (deg)",
        [(aoaTrim tsm5, aoaTrim aoa)], none⟩
    let tsm6 ← lookupE td "TimeSinceMark"
    let dve ← lookupE td "DeltaVExpended"
    let so6 ← lookupE td "SpeedOrbital"
    let tan_vel ← getE so6 0
    let dv_lost ← dv_lost_terms so6 tan_vel 0 dve
    let chart6 : Chart :=
      ⟨"Delta-v Expenditure", "MET (s)", "Δv (m/s)",
        [(tsm6, dve), (tsm6, dv_lost)], some "upper left"⟩
    pure ⟨arrange_subplots verbose, [chart1, chart2, chart3, chart4, chart5, chart6]⟩
  else
    pure ⟨arrange_subplots verbose, [chart1, chart2, chart3, chart4]⟩

/-- The usage line that `parser.print_usage(sys.stderr)` emits. -/
def usageText : String :=
  "usage: ksp-telemetry.py [-h] [--title TITLE] [--verbose] [--out OUTPUT] [--no-view] TELEMETRY_FILE"

/-- The diagnostic printed on line 59-60. -/
def noViewErrText : String :=
  "ksp-telemetry.py: error: argument --no-view: requires argument --out"

/-- Line 63 banner. -/
def bannerText : String := "KSP Telemetry Grapher v1.2.1"

/-- Line 65 progress message. -/
def loadingText (name : String) : String :=
  "Loading Mechjeb telemetry file \"" ++ name ++ "\""

/-- Line 138: the `KeyError` handler message (printed to stdout). -/
def renderErrText : String :=
  "Error: could not find correct data entries in the file passed!"

/-- Line 144 progress message. -/
def savingText (name : String) : String :=
  "Saving graph to \"" ++ name ++ "\""

/-- Line 149 progress message. -/
def previewText : String := "Opening preview"

/-- Line 152 final message. -/
def doneText : String := "Done"

/-- Python truthiness of `args.title : Optional[str]` as tested on line 82:
`None` and the empty string are falsy. -/
def titleTruthy : Option String → Bool
  | none => false
  | some s => !s.isEmpty

/-- The parsed command line.  `out = some name` iff `--out name` was given
(argparse opens the handle at parse time); `title = some t` iff `--title t`
was given. -/
structure Args where
  telemetryName : String
  telemetry : CSV
  title : Option String
  verbose : Bool
  out : Option String
  no_view : Bool
deriving DecidableEq

/-- How the process terminates: `exit c` for an explicit `sys.exit(c)` (or
falling off the end), `fatal e` for an uncaught exception `e`, on which the
interpreter exits with a non-success status. -/
inductive ProgResult where
  | exit (code : Nat)
  | fatal (e : PyError)
deriving DecidableEq

/-- The observable outcome of one invocation.  `stdout` and `stderr` hold
the lines the script itself prints to each stream; the traceback the
interpreter prints on an uncaught exception is represented by the `fatal`
result, not by `stderr`. -/
structure Outcome where
  stdout : List String
  stderr : List String
  figure : Option Figure
  figTitle : Option String
  saved : Bool
  outClosed : Bool
  viewed : Bool
  result : ProgResult
deriving DecidableEq

/-- Lines 56-153: the whole program after argument parsing.  The dependent
argument check runs first; the banner and loading messages print next; the
load, render and output-dispatch steps follow in order. -/
def run (args : Args) : Outcome :=
  if args.no_view && args.out.isNone then
    { stdout := [], stderr := [usageText, noViewErrText], figure := none, figTitle := none,
      saved := false, outClosed := false, viewed := false, result := ProgResult.exit 2 }
  else
    let out1 := [bannerText, loadingText args.telemetryName]
    match load args.telemetry with
    | Except.error e =>
      { stdout := out1, stderr := [], figure := none, figTitle := none,
        saved := false, outClosed := false, viewed := false, result := ProgResult.fatal e }
    | Except.ok td =>
      let ft := if titleTruthy args.title then args.title else none
      match render args.verbose td with
      | Except.error PyError.keyError =>
        { stdout := out1 ++ [renderErrText], stderr := [], figure := none, figTitle := ft,
          saved := false, outClosed := false, viewed := false, result := ProgResult.exit 1 }
      | Except.error e =>
        { stdout := out1, stderr := [], figure := none, figTitle := ft,
          saved := false, outClosed := false, viewed := false, result := ProgResult.fatal e }
      | Except.ok fig =>
        let saveMsgs := match args.out with
          | some outName => [savingText outName]
          | none => []
        let viewMsgs := if args.no_view then [] else [previewText]
        { stdout := out1 ++ saveMsgs ++ viewMsgs ++ [doneText], stderr := [],
          figure := some fig, figTitle := ft,
          saved := args.out.isSome, outClosed := args.out.isSome,
          viewed := !args.no_view, result := ProgResult.exit 0 }

/-- Whether loading and rendering both succeed for the given invocation. -/
def pipelineOk (args : Args) : Bool :=
  match load args.telemetry with
  | Except.ok td =>
    match render args.verbose td with
    | Except.ok _ => true
    | Except.error _ => false
  | Except.error _ => false

/-- The column names the rendering pipeline subscripts, for the given
verbosity (lines 87-130). -/
def required (verbose : Bool) : List String :=
  ["DownRange", "AltitudeASL", "TimeSinceMark", "Acceleration", "SpeedOrbital", "Q"] ++
    if verbose then ["AoA", "DeltaVExpended"] else []

deriving instance DecidableEq for Except

/-! ### Helper lemmas -/

@[simp] lemma ok_bind {α β : Type} (a : α) (f : α → Except PyError β) :
    (Except.ok a >>= f) = f a := rfl

@[simp] lemma error_bind {α β : Type} (e : PyError) (f : α → Except PyError β) :
    ((Except.error e : Except PyError α) >>= f) = Except.error e := rfl

@[simp] lemma pure_eq_ok {α : Type} (a : α) :
    (pure a : Except PyError α) = Except.ok a := rfl

lemma mapME_eq_map {α β : Type} {f : α → Except PyError β} {g : α → β} :
    ∀ {l : List α}, (∀ a ∈ l, f a = Except.ok (g a)) →
      mapME f l = Except.ok (l.map g) := by
  intro l
  induction l with
  | nil => intro _; rfl
  | cons a t ih =>
    intro h
    have ha : f a = Except.ok (g a) := h a (List.mem_cons_self a t)
    have ht : mapME f t = Except.ok (t.map g) :=
      ih (fun x hx => h x (List.mem_cons_of_mem a hx))
    simp [mapME, ha, ht]

lemma mapME_ok_length {α β : Type} {f : α → Except PyError β} :
    ∀ {l : List α} {bs : List β}, mapME f l = Except.ok bs → bs.length = l.length := by
  intro l
  induction l with
  | nil =>
    intro bs h
    simp only [mapME] at h
    cases h
    rfl
  | cons a t ih =>
    intro bs h
    simp only [mapME] at h
    cases hfa : f a with
    | error e => rw [hfa] at h; cases h
    | ok b =>
      rw [hfa] at h
      cases hmt : mapME f t with
      | error e => rw [hmt] at h; cases h
      | ok bt =>
        rw [hmt] at h
        cases h
        simp [ih hmt]

lemma mapME_ok_get? {α β : Type} {f : α → Except PyError β} :
    ∀ {l : List α} {bs : List β}, mapME f l = Except.ok bs →
      ∀ {j : Nat} {a : α}, l.get? j = some a →
        ∃ b, f a = Except.ok b ∧ bs.get? j = some b := by
  intro l
  induction l with
  | nil =>
    intro bs _ j a hj
    simp at hj
  | cons x t ih =>
    intro bs h j a hj
    simp only [mapME] at h
    cases hfx : f x with
    | error e => rw [hfx] at h; cases h
    | ok b =>
      rw [hfx] at h
      cases hmt : mapME f t with
      | error e => rw [hmt] at h; cases h
      | ok bt =>
        rw [hmt] at h
        cases h
        cases j with
        | zero =>
          simp at hj
          subst hj
          exact ⟨b, hfx, rfl⟩
        | succ j =>
          simp only [List.get?] at hj ⊢
          exact ih hmt hj

lemma mapME_ok_or_error {α β : Type} {f : α → Except PyError β} {e₀ : PyError} :
    ∀ {l : List α}, (∀ a ∈ l, (∃ b, f a = Except.ok b) ∨ f a = Except.error e₀) →
      (∃ bs, mapME f l = Except.ok bs) ∨ mapME f l = Except.error e₀ := by
  intro l
  induction l with
  | nil => intro _; exact Or.inl ⟨[], rfl⟩
  | cons a t ih =>
    intro h
    rcases h a (List.mem_cons_self a t) with ⟨b, hb⟩ | hb
    · rcases ih (fun x hx => h x (List.mem_cons_of_mem a hx)) with ⟨bs, hbs⟩ | hbs
      · exact Or.inl ⟨b :: bs, by simp [mapME, hb, hbs]⟩
      · exact Or.inr (by simp [mapME, hb, hbs])
    · exact Or.inr (by simp [mapME, hb])

lemma mapME_error_of_mem {α β : Type} {f : α → Except PyError β} {e₀ : PyError} :
    ∀ {l : List α}, (∀ a ∈ l, (∃ b, f a = Except.ok b) ∨ f a = Except.error e₀) →
      (∃ a ∈ l, f a = Except.error e₀) → mapME f l = Except.error e₀ := by
  intro l
  induction l with
  | nil =>
    intro _ hx
    rcases hx with ⟨a, ha, _⟩
    simp at ha
  | cons x t ih =>
    intro h hx
    rcases h x (List.mem_cons_self x t) with ⟨b, hb⟩ | hb
    · have htail : ∃ a ∈ t, f a = Except.error e₀ := by
        rcases hx with ⟨a, ha, hfa⟩
        rcases List.mem_cons.mp ha with rfl | ha
        · rw [hb] at hfa; cases hfa
        · exact ⟨a, ha, hfa⟩
      have := ih (fun y hy => h y (List.mem_cons_of_mem x hy)) htail
      simp [mapME, hb, this]
    · simp [mapME, hb]

lemma columnAt_ok {raw : List (List ℚ)} {idx : Nat}
    (h : ∀ row ∈ raw, idx < row.length) :
    columnAt raw idx = Except.ok (raw.map (fun row => (row.get? idx).getD 0)) := by
  apply mapME_eq_map
  intro row hrow
  have hlt : idx < row.length := h row hrow
  cases hg : row.get? idx with
  | none => rw [List.get?_eq_none] at hg; omega
  | some v => simp [hg]

lemma telemetry_data_ok {raw : List (List ℚ)} :
    ∀ (hdrs : List String) (idx : Nat),
      (∀ row ∈ raw, hdrs.length + idx ≤ row.length) →
      ∃ tbl, telemetry_data raw idx hdrs = Except.ok tbl ∧
        tbl.length = hdrs.length ∧
        ∀ k name, hdrs.get? k = some name →
          ∃ col, tbl.get? k = some (name, col) ∧ col.length = raw.length ∧
            ∀ j, col.get? j = (raw.get? j).bind (fun row => row.get? (idx + k)) := by
  intro hdrs
  induction hdrs with
  | nil =>
    intro idx _
    exact ⟨[], rfl, rfl, by intro k name hk; simp at hk⟩
  | cons name0 rest ih =>
    intro idx hlen
    have hidx : ∀ row ∈ raw, idx < row.length := by
      intro row hrow
      have := hlen row hrow
      simp at this
      omega
    have hcol := columnAt_ok hidx
    obtain ⟨tbl', htbl', hlen', hget'⟩ := ih (idx + 1) (by
      intro row hrow
      have := hlen row hrow
      simp at this ⊢
      omega)
    refine ⟨(name0, raw.map (fun row => (row.get? idx).getD 0)) :: tbl', ?_, ?_, ?_⟩
    · simp [telemetry_data, hcol, htbl']
    · simp [hlen']
    · intro k name hk
      cases k with
      | zero =>
        simp only [List.get?_cons_zero] at hk
        cases hk
        refine ⟨_, rfl, by simp, ?_⟩
        intro j
        rw [List.get?_map]
        cases hj : raw.get? j with
        | none => rfl
        | some row =>
          have hrow : row ∈ raw := List.get?_mem hj
          have hlt : idx < row.length := hidx row hrow
          show some ((row.get? idx).getD 0) = row.get? (idx + 0)
          cases hg : row.get? idx with
          | none => rw [List.get?_eq_none] at hg; omega
          | some v => rw [Nat.add_zero, hg]; rfl
      | succ k =>
        simp only [List.get?_cons_succ] at hk ⊢
        obtain ⟨col, hcol', hclen, hj⟩ := hget' k name hk
        refine ⟨col, hcol', hclen, ?_⟩
        intro j
        rw [hj j]
        simp only [show idx + 1 + k = idx + (k + 1) from by omega]

lemma telemetry_data_keys {raw : List (List ℚ)} :
    ∀ {hdrs : List String} {idx : Nat} {tbl : Table},
      telemetry_data raw idx hdrs = Except.ok tbl → tbl.map Prod.fst = hdrs := by
  intro hdrs
  induction hdrs with
  | nil =>
    intro idx tbl h
    simp only [telemetry_data] at h
    cases h
    rfl
  | cons name0 rest ih =>
    intro idx tbl h
    simp only [telemetry_data] at h
    cases hc : columnAt raw idx with
    | error e => rw [hc] at h; cases h
    | ok vals =>
      rw [hc] at h
      cases ht : telemetry_data raw (idx + 1) rest with
      | error e => rw [ht] at h; cases h
      | ok tbl' =>
        rw [ht] at h
        cases h
        simp [ih ht]

lemma telemetry_data_nil_raw :
    ∀ (hdrs : List String) (idx : Nat),
      telemetry_data [] idx hdrs = Except.ok (hdrs.map (fun h => (h, ([] : List ℚ)))) := by
  intro hdrs
  induction hdrs with
  | nil => intro idx; rfl
  | cons h t ih => intro idx; simp [telemetry_data, columnAt, mapME, ih]

lemma dictLookup_mem :
    ∀ {tbl : Table} {c : String} {r : List ℚ}, dictLookup tbl c = some r → (c, r) ∈ tbl := by
  intro tbl
  induction tbl with
  | nil => intro c r h; cases h
  | cons p rest ih =>
    intro c r h
    obtain ⟨k, v⟩ := p
    simp only [dictLookup] at h
    cases hr : dictLookup rest c with
    | some r2 =>
      rw [hr] at h
      cases h
      exact List.mem_cons_of_mem _ (ih hr)
    | none =>
      rw [hr] at h
      by_cases hk : k = c
      · simp only [hk, if_pos rfl] at h
        cases h
        cases hk
        exact List.mem_cons_self _ _
      · simp [hk] at h

lemma ne_of_dictLookup_eq_none :
    ∀ {tbl : Table} {c : String}, dictLookup tbl c = none → ∀ p ∈ tbl, p.1 ≠ c := by
  intro tbl
  induction tbl with
  | nil => intro c _ p hp; simp at hp
  | cons q rest ih =>
    intro c h p hp
    obtain ⟨k, v⟩ := q
    simp only [dictLookup] at h
    cases hr : dictLookup rest c with
    | some r => rw [hr] at h; cases h
    | none =>
      rw [hr] at h
      by_cases hk : k = c
      · simp [hk] at h
      · rcases List.mem_cons.mp hp with rfl | hp2
        · simpa using hk
        · exact ih hr p hp2

lemma dictLookup_of_const {v₀ : List ℚ} :
    ∀ {tbl : Table}, (∀ p ∈ tbl, p.2 = v₀) → ∀ {c : String},
      (∃ p ∈ tbl, p.1 = c) → dictLookup tbl c = some v₀ := by
  intro tbl hconst c hex
  cases hd : dictLookup tbl c with
  | some r =>
    have hm := dictLookup_mem hd
    have hr := hconst (c, r) hm
    simp at hr
    rw [hr]
  | none =>
    exfalso
    obtain ⟨p, hp, hpc⟩ := hex
    exact ne_of_dictLookup_eq_none hd p hp hpc

lemma lookup_nil_table {hdrs : List String} {c : String} (hc : c ∈ hdrs) :
    dictLookup (hdrs.map (fun h => (h, ([] : List ℚ)))) c = some [] := by
  apply dictLookup_of_const
  · intro p hp
    rcases List.mem_map.mp hp with ⟨h, _, rfl⟩
    rfl
  · exact ⟨(c, []), List.mem_map.mpr ⟨c, hc, rfl⟩, rfl⟩

lemma parseCell_ok_or_error (c : Cell) :
    (∃ b, parseCell c = Except.ok b) ∨ parseCell c = Except.error PyError.valueError := by
  cases c with
  | none => exact Or.inr rfl
  | some v => exact Or.inl ⟨v, rfl⟩

lemma raw_data_error {rows : List (List Cell)}
    (h : ∃ row ∈ rows, (none : Cell) ∈ row) :
    raw_data rows = Except.error PyError.valueError := by
  apply mapME_error_of_mem
  · intro row _
    exact mapME_ok_or_error (fun c _ => parseCell_ok_or_error c)
  · obtain ⟨row, hrow, hcell⟩ := h
    refine ⟨row, hrow, ?_⟩
    apply mapME_error_of_mem (fun c _ => parseCell_ok_or_error c)
    exact ⟨none, hcell, rfl⟩

lemma dv_lost_terms_ok (so : List ℚ) (tan_vel : ℚ) :
    ∀ (dve : List ℚ) (i : Nat), i + dve.length ≤ so.length →
      ∃ l, dv_lost_terms so tan_vel i dve = Except.ok l ∧ l.length = dve.length ∧
        ∀ k, k < dve.length →
          l.get? k = some (dve.getD k 0 - so.getD (i + k) 0 + tan_vel) := by
  intro dve
  induction dve with
  | nil =>
    intro i _
    exact ⟨[], rfl, rfl, by intro k hk; simp at hk⟩
  | cons d rest ih =>
    intro i hlen
    have hi : i < so.length := by simp at hlen; omega
    have hso : so.get? i = some (so.getD i 0) := by
      cases hg : so.get? i with
      | none => rw [List.get?_eq_none] at hg; omega
      | some v =>
        rw [List.getD_eq_getElem?_getD, ← List.get?_eq_getElem?, hg]
        rfl
    obtain ⟨l, hl, hlenl, hget⟩ := ih (i + 1) (by simp at hlen ⊢; omega)
    refine ⟨(d - so.getD i 0 + tan_vel) :: l, ?_, by simp [hlenl], ?_⟩
    · simp only [dv_lost_terms, hso, hl]
    · intro k hk
      cases k with
      | zero => simp
      | succ k =>
        simp only [List.get?_cons_succ, List.getD_cons_succ]
        rw [show i + (k + 1) = i + 1 + k from by omega]
        exact hget k (by simp at hk; omega)

lemma render_keyError_of_missing {verbose : Bool} {td : Table}
    (h : ∃ c ∈ required verbose, dictLookup td c = none) :
    render verbose td = Except.error PyError.keyError := by
  obtain ⟨c, hc, hnone⟩ := h
  cases verbose with
  | false =>
    cases h1 : dictLookup td "DownRange" with
    | none => simp [render, lookupE, h1]
    | some v1 =>
    cases h2 : dictLookup td "AltitudeASL" with
    | none => simp [render, lookupE, h1, h2]
    | some v2 =>
    cases h3 : dictLookup td "TimeSinceMark" with
    | none => simp [render, lookupE, h1, h2, h3]
    | some v3 =>
    cases h4 : dictLookup td "Acceleration" with
    | none => simp [render, lookupE, h1, h2, h3, h4]
    | some v4 =>
    cases h5 : dictLookup td "SpeedOrbital" with
    | none => simp [render, lookupE, h1, h2, h3, h4, h5]
    | some v5 =>
    cases h6 : dictLookup td "Q" with
    | none => simp [render, lookupE, h1, h2, h3, h4, h5, h6]
    | some v6 =>
      exfalso
      simp only [required, List.mem_append, List.mem_cons] at hc
      rcases hc with ((rfl | rfl | rfl | rfl | rfl | rfl | h0) | h0) <;> simp_all
  | true =>
    cases h1 : dictLookup td "DownRange" with
    | none => simp [render, lookupE, h1]
    | some v1 =>
    cases h2 : dictLookup td "AltitudeASL" with
    | none => simp [render, lookupE, h1, h2]
    | some v2 =>
    cases h3 : dictLookup td "TimeSinceMark" with
    | none => simp [render, lookupE, h1, h2, h3]
    | some v3 =>
    cases h4 : dictLookup td "Acceleration" with
    | none => simp [render, lookupE, h1, h2, h3, h4]
    | some v4 =>
    cases h5 : dictLookup td "SpeedOrbital" with
    | none => simp [render, lookupE, h1, h2, h3, h4, h5]
    | some v5 =>
    cases h6 : dictLookup td "Q" with
    | none => simp [render, lookupE, h1, h2, h3, h4, h5, h6]
    | some v6 =>
    cases h7 : dictLookup td "AoA" with
    | none => simp [render, lookupE, h1, h2, h3, h4, h5, h6, h7]
    | some v7 =>
    cases h8 : dictLookup td "DeltaVExpended" with
    | none => simp [render, lookupE, h1, h2, h3, h4, h5, h6, h7, h8]
    | some v8 =>
      exfalso
      simp only [required, if_pos, List.mem_append, List.mem_cons, List.not_mem_nil,
        or_false, ite_true] at hc
      rcases hc with ((rfl | rfl | rfl | rfl | rfl | rfl | h0) | (rfl | rfl | h0)) <;> simp_all

lemma get?_eq_getD {l : List ℚ} {n : Nat} (h : n < l.length) :
    l.get? n = some (l.getD n 0) := by
  cases hg : l.get? n with
  | none => rw [List.get?_eq_none] at hg; omega
  | some v =>
    rw [List.getD_eq_getElem?_getD, ← List.get?_eq_getElem?, hg]
    rfl

lemma render_empty_columns {td : Table}
    (hmem : ∀ c ∈ required true, dictLookup td c = some []) :
    render true td = Except.error PyError.indexError := by
  have l1 := hmem "DownRange" (by decide)
  have l2 := hmem "AltitudeASL" (by decide)
  have l3 := hmem "TimeSinceMark" (by decide)
  have l4 := hmem "Acceleration" (by decide)
  have l5 := hmem "SpeedOrbital" (by decide)
  have l6 := hmem "Q" (by decide)
  have l7 := hmem "AoA" (by decide)
  have l8 := hmem "DeltaVExpended" (by decide)
  simp [render, lookupE, l1, l2, l3, l4, l5, l6, l7, l8, getE]

/-! ### Claim theorems -/

/-- Claim C1: for every invocation with the suppress-view flag set but no
output target, the program prints the usage line and the dependent-argument
diagnostic to stderr and exits with code 2, with nothing on stdout — in
particular the loading message never prints, so no data is loaded. -/
theorem no_view_without_out_exits_2 (args : Args)
    (h1 : args.no_view = true) (h2 : args.out = none) :
    run args = { stdout := [], stderr := [usageText, noViewErrText], figure := none,
                 figTitle := none, saved := false, outClosed := false, viewed := false,
                 result := ProgResult.exit 2 } := by
  simp [run, h1, h2]

/-- Witness for C1 at a concrete invocation. -/
theorem no_view_without_out_exits_2_witness :
    run { telemetryName := "t.csv", telemetry := ⟨[], []⟩, title := none, verbose := false,
          out := none, no_view := true } =
    { stdout := [], stderr := [usageText, noViewErrText], figure := none, figTitle := none,
      saved := false, outClosed := false, viewed := false, result := ProgResult.exit 2 } :=
  no_view_without_out_exits_2 _ rfl rfl

/-- Claim C3: for a well-formed CSV (every data row has exactly one parsed
float per header position), loading succeeds and yields, for each header at
position `idx`, a column holding the `idx`-th cell of each data row in
order, of length equal to the number of data rows. -/
theorem loader_table_spec (csv : CSV)
    (hshape : ∀ row ∈ csv.rows, row.length = csv.headers.length)
    (hfloat : ∀ row ∈ csv.rows, ∀ c ∈ row, c.isSome = true) :
    ∃ tbl, load csv = Except.ok tbl ∧ tbl.length = csv.headers.length ∧
      ∀ idx name, csv.headers.get? idx = some name →
        ∃ col, tbl.get? idx = some (name, col) ∧ col.length = csv.rows.length ∧
          ∀ j row cell, csv.rows.get? j = some row → row.get? idx = some cell →
            col.get? j = cell := by
  have hraw : raw_data csv.rows =
      Except.ok (csv.rows.map (fun row => row.map (fun c => c.getD 0))) := by
    apply mapME_eq_map
    intro row hrow
    apply mapME_eq_map
    intro c hcmem
    have hs := hfloat row hrow c hcmem
    cases c with
    | none => simp at hs
    | some v => rfl
  have hrlen : ∀ r ∈ csv.rows.map (fun row => row.map (fun c => c.getD 0)),
      csv.headers.length + 0 ≤ r.length := by
    intro r hr
    rcases List.mem_map.mp hr with ⟨row, hrow, rfl⟩
    simp [hshape row hrow]
  obtain ⟨tbl, htbl, hlen, hget⟩ := telemetry_data_ok csv.headers 0 hrlen
  refine ⟨tbl, ?_, hlen, ?_⟩
  · simp [load, hraw, htbl]
  · intro idx name hidx
    obtain ⟨col, hcol, hclen, hj⟩ := hget idx name hidx
    refine ⟨col, hcol, by simpa using hclen, ?_⟩
    intro j row cell hjrow hcell
    have hcellmem : cell ∈ row := List.get?_mem hcell
    have hrowmem : row ∈ csv.rows := List.get?_mem hjrow
    have hcs := hfloat row hrowmem cell hcellmem
    cases cell with
    | none => simp at hcs
    | some v =>
      rw [hj j, List.get?_map, hjrow]
      show (List.map (fun c => c.getD 0) row).get? (0 + idx) = some v
      rw [Nat.zero_add, List.get?_map, hcell]
      rfl

/-- Witness for C3 at a concrete two-column, two-row CSV. -/
theorem loader_table_spec_witness :
    ∃ tbl, load ⟨["A", "B"], [[some 1, some 2], [some 3, some 4]]⟩ = Except.ok tbl ∧
      tbl.length = (["A", "B"] : List String).length ∧
      ∀ idx name, (["A", "B"] : List String).get? idx = some name →
        ∃ col, tbl.get? idx = some (name, col) ∧
          col.length = ([[some 1, some 2], [some 3, some 4]] : List (List Cell)).length ∧
          ∀ j row cell,
            ([[some 1, some 2], [some 3, some 4]] : List (List Cell)).get? j = some row →
            row.get? idx = some cell → col.get? j = cell :=
  loader_table_spec ⟨["A", "B"], [[some 1, some 2], [some 3, some 4]]⟩
    (by decide) (by decide)

/-- Claim C4: in verbose mode the delta-v-lost series value at each index
`i` is `DeltaVExpended[i] - SpeedOrbital[i] + SpeedOrbital[0]`, and when
both source columns are identically zero every value of the series equals
`SpeedOrbital[0]`. -/
theorem dv_lost_series_spec (dve so : List ℚ) (hlen : dve.length ≤ so.length) :
    ∃ l, dv_lost_terms so (so.getD 0 0) 0 dve = Except.ok l ∧ l.length = dve.length ∧
      (∀ i, i < dve.length → l.get? i = some (dve.getD i 0 - so.getD i 0 + so.getD 0 0)) ∧
      ((∀ x ∈ dve, x = 0) → (∀ x ∈ so, x = 0) → ∀ x ∈ l, x = so.getD 0 0) := by
  obtain ⟨l, hl, hlenl, hget⟩ := dv_lost_terms_ok so (so.getD 0 0) dve 0 (by omega)
  refine ⟨l, hl, hlenl, ?_, ?_⟩
  · intro i hi
    have h := hget i hi
    rwa [Nat.zero_add] at h
  · intro hdve hso x hx
    rcases List.mem_iff_get?.mp hx with ⟨n, hn⟩
    have hnlt : n < l.length := by
      by_contra hge
      rw [List.get?_eq_none.mpr (by omega)] at hn
      cases hn
    have hnd : n < dve.length := hlenl ▸ hnlt
    rw [hget n hnd, Nat.zero_add] at hn
    have hd0 : dve.getD n 0 = 0 :=
      hdve _ (List.get?_mem (get?_eq_getD hnd))
    have hs0 : so.getD n 0 = 0 :=
      hso _ (List.get?_mem (get?_eq_getD (by omega)))
    cases hn
    rw [hd0, hs0]
    ring

/-- Witness for C4 on all-zero two-sample columns. -/
theorem dv_lost_series_spec_witness :
    ∃ l, dv_lost_terms [0, 0] (([0, 0] : List ℚ).getD 0 0) 0 [0, 0] = Except.ok l ∧
      l.length = ([0, 0] : List ℚ).length ∧
      (∀ i, i < ([0, 0] : List ℚ).length →
        l.get? i = some (([0, 0] : List ℚ).getD i 0 - ([0, 0] : List ℚ).getD i 0 +
          ([0, 0] : List ℚ).getD 0 0)) ∧
      ((∀ x ∈ ([0, 0] : List ℚ), x = 0) → (∀ x ∈ ([0, 0] : List ℚ), x = 0) →
        ∀ x ∈ l, x = ([0, 0] : List ℚ).getD 0 0) :=
  dv_lost_series_spec [0, 0] [0, 0] (by decide)

/-- Claim C5: the angle-of-attack trim drops exactly the first 3 samples of
both plotted sequences: the trimmed lengths are `N - 3`, index `i` of a
trimmed sequence is index `3 + i` of the original (so the two series stay
aligned), and for sequences of at most 3 samples the result is the empty
series, not an error. -/
theorem aoa_trim_spec (tsm aoa : List ℚ) :
    (aoaTrim tsm).length = tsm.length - 3 ∧
    (aoaTrim aoa).length = aoa.length - 3 ∧
    (∀ i, (aoaTrim tsm).get? i = tsm.get? (3 + i)) ∧
    (∀ i, (aoaTrim aoa).get? i = aoa.get? (3 + i)) ∧
    (tsm.length ≤ 3 → aoaTrim tsm = []) ∧
    (aoa.length ≤ 3 → aoaTrim aoa = []) := by
  refine ⟨by simp [aoaTrim], by simp [aoaTrim], ?_, ?_, ?_, ?_⟩
  · intro i; simp [aoaTrim, List.get?_drop]
  · intro i; simp [aoaTrim, List.get?_drop]
  · intro h
    apply List.eq_nil_of_length_eq_zero
    simp [aoaTrim]
    omega
  · intro h
    apply List.eq_nil_of_length_eq_zero
    simp [aoaTrim]
    omega

/-- Witness for C5: a 2-sample series trims to empty, a 4-sample series
keeps exactly its last sample. -/
theorem aoa_trim_spec_witness :
    aoaTrim ([1, 2] : List ℚ) = [] ∧ (aoaTrim ([1, 2, 3, 4] : List ℚ)).length = 1 := by
  constructor
  · exact (aoa_trim_spec [1, 2] [1, 2]).2.2.2.2.1 (by decide)
  · exact (aoa_trim_spec [1, 2, 3, 4] [1, 2, 3, 4]).1

/-- Claim C6: the kilometre conversion divides every element by 1000
exactly once (index `i` of the output is index `i` of the input divided by
1000) and division by 1000 is order-preserving on the sample values. -/
theorem km_conversion_spec (l : List ℚ) :
    (to_km l).length = l.length ∧
    (∀ i, (to_km l).get? i = (l.get? i).map (fun d => d / 1000)) ∧
    (∀ a b : ℚ, a ≤ b → a / 1000 ≤ b / 1000) := by
  refine ⟨by simp [to_km], ?_, ?_⟩
  · intro i
    simp [to_km, List.get?_map]
  · intro a b hab
    have h1000 : (0 : ℚ) ≤ 1000 := by norm_num
    exact div_le_div_of_nonneg_right hab h1000

/-- Witness for C6 at concrete values. -/
theorem km_conversion_spec_witness : (1 : ℚ) / 1000 ≤ 2 / 1000 :=
  (km_conversion_spec []).2.2 1 2 (by norm_num)

/-- Claim C7: any invocation that passes the argument check and whose input
has a cell on which the float parse fails dies with an uncaught
`ValueError` (a non-success termination): nothing is rendered, saved or
viewed, and nothing is printed beyond the banner and loading messages. -/
theorem parse_error_fatal (args : Args)
    (hchk : (args.no_view && args.out.isNone) = false)
    (hbad : ∃ row ∈ args.telemetry.rows, (none : Cell) ∈ row) :
    (run args).result = ProgResult.fatal PyError.valueError ∧
    (run args).stderr = [] ∧ (run args).saved = false ∧ (run args).viewed = false ∧
    (run args).stdout = [bannerText, loadingText args.telemetryName] := by
  have hload : load args.telemetry = Except.error PyError.valueError := by
    simp [load, raw_data_error hbad]
  simp [run, hchk, hload]

/-- Witness for C7: a one-row CSV with a non-parsing cell. -/
theorem parse_error_fatal_witness :
    (run { telemetryName := "bad.csv", telemetry := ⟨["A"], [[none]]⟩, title := none,
           verbose := false, out := none, no_view := false }).result =
      ProgResult.fatal PyError.valueError ∧
    (run { telemetryName := "bad.csv", telemetry := ⟨["A"], [[none]]⟩, title := none,
           verbose := false, out := none, no_view := false }).stderr = [] ∧
    (run { telemetryName := "bad.csv", telemetry := ⟨["A"], [[none]]⟩, title := none,
           verbose := false, out := none, no_view := false }).saved = false ∧
    (run { telemetryName := "bad.csv", telemetry := ⟨["A"], [[none]]⟩, title := none,
           verbose := false, out := none, no_view := false }).viewed = false ∧
    (run { telemetryName := "bad.csv", telemetry := ⟨["A"], [[none]]⟩, title := none,
           verbose := false, out := none, no_view := false }).stdout =
      [bannerText, loadingText "bad.csv"] :=
  parse_error_fatal _ rfl ⟨[none], by decide, by decide⟩

/-- An invocation on a CSV that lacks the `Q` column, with a save target
configured. -/
def noQArgs : Args :=
  { telemetryName := "t.csv",
    telemetry := ⟨["DownRange", "AltitudeASL", "TimeSinceMark", "Acceleration", "SpeedOrbital"],
                  [[some 1, some 2, some 3, some 4, some 5]]⟩,
    title := none, verbose := false, out := some "o.png", no_view := true }

/-- Counterexample to C2 as stated: on an input missing the required `Q`
column the process does exit 1 without saving, but the diagnostic goes to
standard output and nothing at all is written to the error stream. -/
theorem missing_column_diag_not_on_stderr :
    (run noQArgs).stderr = [] ∧ (run noQArgs).result = ProgResult.exit 1 ∧
    renderErrText ∈ (run noQArgs).stdout ∧ (run noQArgs).saved = false := by decide

/-- Claim C2 (amended): when loading succeeds but the table lacks a column
required by the active verbosity mode, the rendering failure is caught, a
diagnostic is printed to standard output (not stderr, which stays empty),
the process exits with code 1, and the figure is neither saved nor viewed
even when a save target was configured. -/
theorem missing_column_exit1 (args : Args) (td : Table)
    (hchk : (args.no_view && args.out.isNone) = false)
    (hld : load args.telemetry = Except.ok td)
    (hmiss : ∃ c ∈ required args.verbose, dictLookup td c = none) :
    (run args).result = ProgResult.exit 1 ∧
    (run args).stdout = [bannerText, loadingText args.telemetryName, renderErrText] ∧
    (run args).stderr = [] ∧ (run args).saved = false ∧ (run args).viewed = false ∧
    (run args).figure = none := by
  have hr := render_keyError_of_missing hmiss
  simp [run, hchk, hld, hr]

/-- Witness for C2 (amended) at the concrete `Q`-less invocation. -/
theorem missing_column_exit1_witness :
    (run noQArgs).result = ProgResult.exit 1 ∧
    (run noQArgs).stdout = [bannerText, loadingText "t.csv", renderErrText] ∧
    (run noQArgs).stderr = [] ∧ (run noQArgs).saved = false ∧
    (run noQArgs).viewed = false ∧ (run noQArgs).figure = none :=
  missing_column_exit1 noQArgs
    [("DownRange", [1]), ("AltitudeASL", [2]), ("TimeSinceMark", [3]),
     ("Acceleration", [4]), ("SpeedOrbital", [5])]
    rfl (by decide) (by decide)

/-- Claim C8: after a successful load and render, the figure is saved and
the save target closed exactly when a save target was configured, the
figure is viewed exactly when suppress-view was not given, at least one of
save or view occurs, and the process exits 0.  In particular with both
suppress-view and a save target, only the save happens. -/
theorem output_dispatch_spec (args : Args)
    (hchk : (args.no_view && args.out.isNone) = false)
    (hpipe : pipelineOk args = true) :
    (run args).saved = args.out.isSome ∧
    (run args).outClosed = args.out.isSome ∧
    (run args).viewed = !args.no_view ∧
    ((run args).saved = true ∨ (run args).viewed = true) ∧
    (run args).result = ProgResult.exit 0 := by
  unfold pipelineOk at hpipe
  cases hld : load args.telemetry with
  | error e => rw [hld] at hpipe; simp at hpipe
  | ok td =>
    rw [hld] at hpipe
    simp only [] at hpipe
    cases hr : render args.verbose td with
    | error e => rw [hr] at hpipe; simp at hpipe
    | ok fig =>
      refine ⟨?_, ?_, ?_, ?_, ?_⟩
      · simp [run, hchk, hld, hr]
      · simp [run, hchk, hld, hr]
      · simp [run, hchk, hld, hr]
      · cases hnv : args.no_view with
        | false => exact Or.inr (by simp [run, hchk, hld, hr, hnv])
        | true =>
          cases hout : args.out with
          | none => rw [hnv, hout] at hchk; simp at hchk
          | some o => exact Or.inl (by simp [run, hchk, hld, hr, hout])
      · simp [run, hchk, hld, hr]

/-- A complete non-verbose invocation with a save target and suppressed
view. -/
def saveOnlyArgs : Args :=
  { telemetryName := "telemetry.csv",
    telemetry := ⟨["DownRange", "AltitudeASL", "TimeSinceMark", "Acceleration",
                   "SpeedOrbital", "Q"],
                  [[some 1, some 2, some 3, some 4, some 5, some 6]]⟩,
    title := none, verbose := false, out := some "result.png", no_view := true }

/-- Witness for C8: with `--out result.png --no-view` on a full CSV, the
figure is saved, the target closed, nothing is viewed, and the process
exits 0. -/
theorem output_dispatch_spec_witness :
    (run saveOnlyArgs).saved = saveOnlyArgs.out.isSome ∧
    (run saveOnlyArgs).outClosed = saveOnlyArgs.out.isSome ∧
    (run saveOnlyArgs).viewed = !saveOnlyArgs.no_view ∧
    ((run saveOnlyArgs).saved = true ∨ (run saveOnlyArgs).viewed = true) ∧
    (run saveOnlyArgs).result = ProgResult.exit 0 :=
  output_dispatch_spec saveOnlyArgs rfl (by decide)

/-- Claim C9: in verbose mode, an input with all required columns present
but zero data rows dies with an uncaught `IndexError` from the
`SpeedOrbital[0]` baseline access — not with the handled missing-column
path: no diagnostic is printed, nothing is saved or viewed. -/
theorem zero_rows_verbose_fatal (args : Args)
    (hchk : (args.no_view && args.out.isNone) = false)
    (hverb : args.verbose = true)
    (hrows : args.telemetry.rows = [])
    (hcols : ∀ c ∈ required true, c ∈ args.telemetry.headers) :
    (run args).result = ProgResult.fatal PyError.indexError ∧
    (run args).stdout = [bannerText, loadingText args.telemetryName] ∧
    (run args).stderr = [] ∧ (run args).saved = false ∧ (run args).viewed = false := by
  have hld : load args.telemetry =
      Except.ok (args.telemetry.headers.map (fun h => (h, ([] : List ℚ)))) := by
    simp [load, hrows, raw_data, mapME, telemetry_data_nil_raw]
  have hrender : render true (args.telemetry.headers.map (fun h => (h, ([] : List ℚ)))) =
      Except.error PyError.indexError := by
    apply render_empty_columns
    intro c hc
    exact lookup_nil_table (hcols c hc)
  simp [run, hchk, hld, hverb, hrender]

/-- A verbose invocation whose CSV has all eight required headers and no
data rows. -/
def headerOnlyArgs : Args :=
  { telemetryName := "empty.csv",
    telemetry := ⟨["DownRange", "AltitudeASL", "TimeSinceMark", "Acceleration",
                   "SpeedOrbital", "Q", "AoA", "DeltaVExpended"], []⟩,
    title := none, verbose := true, out := none, no_view := false }

/-- Witness for C9 at the concrete header-only verbose invocation. -/
theorem zero_rows_verbose_fatal_witness :
    (run headerOnlyArgs).result = ProgResult.fatal PyError.indexError ∧
    (run headerOnlyArgs).stdout = [bannerText, loadingText "empty.csv"] ∧
    (run headerOnlyArgs).stderr = [] ∧ (run headerOnlyArgs).saved = false ∧
    (run headerOnlyArgs).viewed = false :=
  zero_rows_verbose_fatal headerOnlyArgs rfl rfl rfl (by decide)

/-- Claim C10: passing an empty title behaves exactly as omitting the title
option: the whole observable outcome coincides, and no figure title is set. -/
theorem empty_title_as_omitted (args : Args) :
    run { args with title := some "" } = run { args with title := none } ∧
    (run { args with title := none }).figTitle = none := by
  constructor
  · rfl
  · simp only [run, titleTruthy]
    split
    · rfl
    · split
      · rfl
      · split <;> rfl
